import Mathlib

/-!
Verification of the execution-sandbox HTTP service (`src/infra/sandbox/executor.py`).

The development shallowly embeds the `/execute` handler: its request
validation, timeout clamping, workspace lifecycle (`tempfile.mkdtemp`,
`shutil.rmtree` in the `finally` block), the wrapped program text, the
subprocess outcome handling (`subprocess.run`, `TimeoutExpired`, the generic
exception handler), and the artifact collection loop (`glob` over `*.png`,
lexicographic sort, base64 encoding).

Effectful operations (directory creation, file writes, the child process,
deletion) are resolved by an `Oracle` that fixes the outcome of each
operation; `execute` then computes the HTTP response together with a trace
of the externally visible filesystem effects.
-/

namespace Sandbox

/-- Configured default timeout in seconds (`TIMEOUT_DEFAULT = 30`). -/
def TIMEOUT_DEFAULT : Int := 30

/-- Configured maximum timeout in seconds (`TIMEOUT_MAX = 60`). -/
def TIMEOUT_MAX : Int := 60

/-- Workspace root (`TMP_DIR = '/tmp/sandbox'`). -/
def TMP_DIR : String := "/tmp/sandbox"

/-- Effective timeout: `timeout = min(data.get('timeout', TIMEOUT_DEFAULT), TIMEOUT_MAX)`. -/
def effectiveTimeout (requested : Option Int) : Int :=
  min (requested.getD TIMEOUT_DEFAULT) TIMEOUT_MAX

/-- Body of the timeout response: `f'Execution timed out after {timeout} seconds'`. -/
def timeoutMessage (timeout : Int) : String :=
  "Execution timed out after " ++ toString timeout ++ " seconds"

/-- Validation error message: `{'error': 'Missing "code" field'}`. -/
def missingCodeMsg : String := "Missing \"code\" field"

/-! ### Base64 (model of Python `base64.b64encode(...).decode('utf-8')`) -/

/-- The standard base64 alphabet. -/
def b64Chars : List Char :=
  "ABCDEFGHIJKLMNOPQRSTUVWXYZabcdefghijklmnopqrstuvwxyz0123456789+/".toList

/-- Character for one 6-bit group. -/
def b64Digit (n : Nat) : Char := b64Chars.getD n (Char.ofNat 65)

/-- Encode bytes three at a time into 6-bit groups with `=` padding. -/
def b64Chunks : List Nat → List Char
  | [] => []
  | [a] =>
    [b64Digit (a / 4), b64Digit (a % 4 * 16), Char.ofNat 61, Char.ofNat 61]
  | [a, b] =>
    [b64Digit (a / 4), b64Digit (a % 4 * 16 + b / 16), b64Digit (b % 16 * 4), Char.ofNat 61]
  | a :: b :: c :: rest =>
    b64Digit (a / 4) :: b64Digit (a % 4 * 16 + b / 16) ::
      b64Digit (b % 16 * 4 + c / 64) :: b64Digit (c % 64) :: b64Chunks rest

/-- Base64 encoding of a byte sequence, as a string. -/
def b64encode (bytes : List Nat) : String := String.mk (b64Chunks bytes)

/-! ### Data model -/

/-- Parsed JSON body of a `/execute` request: the two fields the handler
reads, each possibly absent. An absent or falsy body is `Option.none` at
the use site. -/
structure ExecRequest where
  code : Option String
  timeout : Option Int
deriving Repr, DecidableEq

/-- One entry of the `files` list of the response. -/
structure FileEntry where
  name : String
  base64 : String
  mimeType : String
deriving Repr, DecidableEq

/-- The ExecutionResult JSON shape returned by the handler. -/
structure ExecutionResponse where
  stdout : String
  stderr : String
  returnCode : Int
  files : List FileEntry
  executionTimeMs : Int
deriving Repr, DecidableEq

/-- Body of an HTTP response: either an ExecutionResult-shaped JSON object
or the `{'error': ...}` validation object. -/
inductive HttpBody where
  | result (r : ExecutionResponse)
  | errorJson (msg : String)
deriving Repr, DecidableEq

/-- An HTTP response as produced by the handler: status code plus body. -/
structure HttpResponse where
  status : Nat
  body : HttpBody
deriving Repr, DecidableEq

/-- Captured output of `subprocess.run` when the child terminates in time. -/
structure RunResult where
  stdout : String
  stderr : String
  returncode : Int
deriving Repr, DecidableEq

/-- Outcome of the `subprocess.run` call: normal termination (any exit
code), `TimeoutExpired`, or some other exception with message `msg`. -/
inductive RunOutcome where
  | completed (r : RunResult)
  | timedOut
  | raised (msg : String)
deriving Repr, DecidableEq

/-- Oracle fixing the outcome of every effectful operation of one request:
whether `tempfile.mkdtemp` raises, the directory it returns, whether the
code-file write raises, the subprocess outcome, the measured elapsed
milliseconds, the workspace contents (name, bytes) left by the child, and
the behaviour of `shutil.rmtree` in the `finally` block. -/
structure Oracle where
  mkdtempExc : Option String
  execDir : String
  writeExc : Option String
  runOutcome : RunOutcome
  elapsedMs : Int
  filesAfterRun : List (String × List Nat)
  rmtreeExc : Option String
  rmtreeRemoved : Bool
deriving Repr, DecidableEq

/-! ### Workspace teardown (the `finally` block) -/

/-- Result of the teardown step: whether it let an exception escape, and
whether the workspace directory is gone afterwards. -/
structure ReleaseOutcome where
  raised : Bool
  dirRemoved : Bool
deriving Repr, DecidableEq

/-- The raw `shutil.rmtree(exec_dir, ignore_errors=True)` call, which the
oracle may still make raise (e.g. before deletion starts). -/
def rmtreeCall (w : Oracle) : Except String Unit :=
  match w.rmtreeExc with
  | some m => Except.error m
  | none => Except.ok ()

/-- The `finally` block: `try: shutil.rmtree(exec_dir, ignore_errors=True)
except: pass`. The bare `except` swallows any exception, so no branch
raises; the directory is gone exactly when the best-effort deletion
succeeded. -/
def finallyCleanup (w : Oracle) : ReleaseOutcome :=
  match rmtreeCall w with
  | Except.error _ => { raised := false, dirRemoved := w.rmtreeRemoved }
  | Except.ok _ => { raised := false, dirRemoved := w.rmtreeRemoved }

/-! ### Artifact collection (`glob.glob(os.path.join(exec_dir, '*.png'))`) -/

/-- Whether a workspace entry name matches the glob pattern `*.png`:
the name ends in `.png`, and `*` neither crosses directory separators nor
matches a leading dot. -/
def globPngMatches (name : String) : Bool :=
  ".png".data.isSuffixOf name.data
    && !(".".data.isPrefixOf name.data)
    && !(name.data.contains (Char.ofNat 47))

/-- Lexicographic comparison of character lists by Unicode code point —
the order Python `sorted` applies to strings. -/
def charListLe : List Char → List Char → Bool
  | [], _ => true
  | _ :: _, [] => false
  | a :: as, b :: bs =>
    if a.toNat < b.toNat then true
    else if b.toNat < a.toNat then false
    else charListLe as bs

/-- Ordering of workspace entries by filename, as Python `sorted` on the
joined paths (the shared `exec_dir` prefix makes this the filename order). -/
def byName (a b : String × List Nat) : Prop :=
  charListLe a.1.data b.1.data = true

instance : DecidableRel byName := fun a b =>
  inferInstanceAs (Decidable (charListLe a.1.data b.1.data = true))

/-- The collection loop: every `*.png` entry of the workspace, sorted by
filename, read fully and base64-encoded, with mime type `image/png`. -/
def collectFiles (fs : List (String × List Nat)) : List FileEntry :=
  ((fs.filter (fun p => globPngMatches p.1)).insertionSort byName).map
    (fun p => { name := p.1, base64 := b64encode p.2, mimeType := "image/png" })

/-! ### The wrapped program text (`wrapped_code` f-string) -/

/-- Text of the wrapping f-string before the `exec_dir` hole of the preamble. -/
def preamblePart1 : String := "\nimport os\nimport sys\nimport matplotlib\nmatplotlib.use(\x27Agg\x27)  # Non-interactive backend\nimport matplotlib.pyplot as plt\n\n# Change to execution directory for file output\nos.chdir(\""

/-- Text between the `exec_dir` hole of the preamble and the user-code hole. -/
def preamblePart2 : String := "\")\n\n# User code starts here\n"

/-- Everything the wrapper places before the user code. -/
def preamble (execDir : String) : String := preamblePart1 ++ execDir ++ preamblePart2

/-- Text of the wrapping f-string between the user-code hole and the
`exec_dir` hole of the figure-export loop. -/
def postamblePart1 : String := "\n\n# Auto-save any open matplotlib figures\nfor i, fig_num in enumerate(plt.get_fignums()):\n    fig = plt.figure(fig_num)\n    fig.savefig(os.path.join(\""

/-- Text of the wrapping f-string after the `exec_dir` hole of the
figure-export loop. -/
def postamblePart2 : String := "\", f\"figure_{i}.png\"), dpi=150, bbox_inches=\x27tight\x27)\n    plt.close(fig)\n"

/-- Everything the wrapper places after the user code. -/
def postamble (execDir : String) : String := postamblePart1 ++ execDir ++ postamblePart2

/-- The materialized program text: preamble, user code verbatim, postamble. -/
def wrapped_code (execDir code : String) : String :=
  preamble execDir ++ code ++ postamble execDir

/-! ### Decimal numerals (model of Python `str(i)` in `f"figure_{i}.png"`) -/

/-- Decimal digits of `n`, most significant first. -/
def decDigits (n : Nat) : List Nat :=
  if n < 10 then [n] else decDigits (n / 10) ++ [n % 10]
decreasing_by
  exact Nat.div_lt_self (by omega) (by omega)

/-- Character of one decimal digit. -/
def digitChar (d : Nat) : Char := Char.ofNat (48 + d)

/-- Decimal representation of `n`, as Python `str` renders a nonnegative int. -/
def decRepr (n : Nat) : String := String.mk ((decDigits n).map digitChar)

/-- Name of the exported image of the figure at enumeration index `i`. -/
def saveName (i : Nat) : String := "figure_" ++ decRepr i ++ ".png"

/-! ### The figure-export loop of the postamble -/

/-- One `fig.savefig(...)`/`plt.close(fig)` step of the export loop. -/
structure SaveAction where
  directory : String
  fileName : String
  dpi : Nat
  closedAfter : Bool
deriving Repr, DecidableEq

/-- Semantics of `for i, fig_num in enumerate(plt.get_fignums()): ...`:
`figs` is the list `plt.get_fignums()` returns; index `i` names the output
file, the figure is saved at 150 dpi into the workspace and then closed. -/
def exportFigures (execDir : String) (figs : List Nat) : List SaveAction :=
  figs.enum.map (fun p =>
    { directory := execDir, fileName := saveName p.1, dpi := 150, closedAfter := true })

/-! ### The `/execute` handler -/

/-- Externally visible outcome of one `/execute` call: the HTTP response
(or the exception that escaped the handler), together with the filesystem
and process effects the claims talk about. `childForciblyTerminated`
records that `subprocess.run` kills the child before raising
`TimeoutExpired`; `filesAtRelease` is the child-written workspace content
still present when the `finally` block runs. -/
structure ExecTrace where
  response : Except String HttpResponse
  workspacesCreated : Nat
  workspaceExistsAfter : Bool
  releaseCalled : Bool
  releaseRaised : Bool
  childForciblyTerminated : Bool
  writtenProgram : Option String
  filesAtRelease : List (String × List Nat)

/-- Trace of a request rejected by validation: the 400 response is built
before `tempfile.mkdtemp` is reached. -/
def validationFailTrace : ExecTrace :=
  { response := Except.ok { status := 400, body := HttpBody.errorJson missingCodeMsg }
    workspacesCreated := 0
    workspaceExistsAfter := false
    releaseCalled := false
    releaseRaised := false
    childForciblyTerminated := false
    writtenProgram := none
    filesAtRelease := [] }

/-- Trace of an execution that reached the `try` body: the `finally`
cleanup runs on every such path, after the one workspace was created. -/
def tryExitTrace (w : Oracle) (response : Except String HttpResponse)
    (terminated : Bool) (prog : Option String)
    (fsAtRel : List (String × List Nat)) : ExecTrace :=
  let rel := finallyCleanup w
  { response := response
    workspacesCreated := 1
    workspaceExistsAfter := !rel.dirRemoved
    releaseCalled := true
    releaseRaised := rel.raised
    childForciblyTerminated := terminated
    writtenProgram := prog
    filesAtRelease := fsAtRel }

/-- Trace of a request whose `tempfile.mkdtemp` call raised: the call sits
before the `try` block, so nothing is caught, the `finally` block never
runs, and the exception escapes to the web framework. -/
def mkdtempFailTrace (m : String) : ExecTrace :=
  { response := Except.error m
    workspacesCreated := 0
    workspaceExistsAfter := false
    releaseCalled := false
    releaseRaised := false
    childForciblyTerminated := false
    writtenProgram := none
    filesAtRelease := [] }

/-- The `/execute` handler. `data` is `request.get_json()` with falsy
bodies collapsed into `none`; the oracle resolves every effectful step.
Mirrors the source: validation, timeout clamp, `mkdtemp` outside the
`try`, then the `try` body (write, run, collect, 200/500 responses), the
`TimeoutExpired` and generic exception handlers, and the `finally`
cleanup. -/
def execute (data : Option ExecRequest) (w : Oracle) : ExecTrace :=
  match data with
  | none => validationFailTrace
  | some d =>
    match d.code with
    | none => validationFailTrace
    | some code =>
      let timeout := effectiveTimeout d.timeout
      match w.mkdtempExc with
      | some m => mkdtempFailTrace m
      | none =>
        match w.writeExc with
        | some m =>
          let res : ExecutionResponse :=
            { stdout := "", stderr := m, returnCode := -1, files := [], executionTimeMs := 0 }
          tryExitTrace w (Except.ok { status := 500, body := HttpBody.result res }) false none []
        | none =>
          match w.runOutcome with
          | RunOutcome.completed r =>
            let res : ExecutionResponse :=
              { stdout := r.stdout, stderr := r.stderr, returnCode := r.returncode,
                files := collectFiles w.filesAfterRun, executionTimeMs := w.elapsedMs }
            tryExitTrace w (Except.ok { status := 200, body := HttpBody.result res })
              false (some (wrapped_code w.execDir code)) w.filesAfterRun
          | RunOutcome.timedOut =>
            let res : ExecutionResponse :=
              { stdout := "", stderr := timeoutMessage timeout, returnCode := -1,
                files := [], executionTimeMs := timeout * 1000 }
            tryExitTrace w (Except.ok { status := 200, body := HttpBody.result res })
              true (some (wrapped_code w.execDir code)) w.filesAfterRun
          | RunOutcome.raised m =>
            let res : ExecutionResponse :=
              { stdout := "", stderr := m, returnCode := -1, files := [], executionTimeMs := 0 }
            tryExitTrace w (Except.ok { status := 500, body := HttpBody.result res })
              false (some (wrapped_code w.execDir code)) w.filesAfterRun

/-! ### Concrete oracles and requests used by witnesses and counterexamples -/

/-- An oracle on which every operation succeeds and the child exits 0
with no output and no files. -/
def okOracle : Oracle :=
  { mkdtempExc := none
    execDir := "/tmp/sandbox/tmpabc123"
    writeExc := none
    runOutcome := RunOutcome.completed { stdout := "", stderr := "", returncode := 0 }
    elapsedMs := 5
    filesAfterRun := []
    rmtreeExc := none
    rmtreeRemoved := true }

/-- An oracle on which `tempfile.mkdtemp` raises. -/
def mkdtempFailOracle : Oracle :=
  { okOracle with mkdtempExc := some "could not create directory" }

/-- An oracle on which writing the code file raises. -/
def writeFailOracle : Oracle :=
  { okOracle with writeExc := some "disk full" }

/-- An oracle on which the child is still running when the timeout fires,
having already produced an image file in the workspace. -/
def timedOutOracle : Oracle :=
  { okOracle with
      runOutcome := RunOutcome.timedOut
      filesAfterRun := [("figure_0.png", [137, 80, 78, 71])] }

/-- An oracle on which the child exits 1 with an error trace on stderr. -/
def crashOracle : Oracle :=
  { okOracle with
      runOutcome := RunOutcome.completed
        { stdout := "partial", stderr := "Traceback: ZeroDivisionError", returncode := 1 } }

/-- An oracle on which the child saved two figures (listed out of order,
as a directory scan may return them). -/
def twoFigureOracle : Oracle :=
  { okOracle with
      filesAfterRun := [("figure_1.png", [137, 80]), ("figure_0.png", [78, 71])] }

/-- A well-formed request. -/
def sampleRequest : ExecRequest := { code := some "print(1)", timeout := none }

/-- A request whose `code` field is present but the empty string. -/
def emptyCodeRequest : ExecRequest := { code := some "", timeout := none }

end Sandbox

namespace Sandbox

/-! ### Decimal numeral lemmas -/

/-- Value of a digit list, most significant digit first. -/
def digitsVal : List Nat → Nat
  | [] => 0
  | d :: ds => d * 10 ^ ds.length + digitsVal ds

theorem digitsVal_append (xs : List Nat) (r : Nat) :
    digitsVal (xs ++ [r]) = 10 * digitsVal xs + r := by
  induction xs with
  | nil => simp [digitsVal]
  | cons d ds ih =>
    simp only [List.cons_append, digitsVal, List.append_eq, List.length_append,
      List.length_cons, List.length_nil, ih]
    ring

theorem digitsVal_decDigits (n : Nat) : digitsVal (decDigits n) = n := by
  induction n using Nat.strong_induction_on with
  | _ n ih =>
    rw [decDigits]
    split
    · simp [digitsVal]
    · next h =>
      rw [digitsVal_append, ih (n / 10) (Nat.div_lt_self (by omega) (by omega))]
      omega

theorem decDigits_injective : Function.Injective decDigits := by
  intro a b h
  rw [← digitsVal_decDigits a, ← digitsVal_decDigits b, h]

theorem decDigits_lt_ten (n : Nat) : ∀ d ∈ decDigits n, d < 10 := by
  induction n using Nat.strong_induction_on with
  | _ n ih =>
    rw [decDigits]
    split
    · next h => intro d hd; simp at hd; omega
    · next h =>
      intro d hd
      rcases List.mem_append.mp hd with h1 | h2
      · exact ih (n / 10) (Nat.div_lt_self (by omega) (by omega)) d h1
      · simp at h2; omega

theorem digitChar_inj_lt : ∀ a, a < 10 → ∀ b, b < 10 → digitChar a = digitChar b → a = b := by
  decide

theorem map_digitChar_inj : ∀ xs ys : List Nat, (∀ x ∈ xs, x < 10) → (∀ y ∈ ys, y < 10) →
    xs.map digitChar = ys.map digitChar → xs = ys := by
  intro xs
  induction xs with
  | nil =>
    intro ys _ _ h
    cases ys with
    | nil => rfl
    | cons y ys => simp at h
  | cons x xs ih =>
    intro ys hx hy h
    cases ys with
    | nil => simp at h
    | cons y ys =>
      simp only [List.map_cons, List.cons.injEq] at h
      have hxy : x = y :=
        digitChar_inj_lt x (hx x (by simp)) y (hy y (by simp)) h.1
      subst hxy
      rw [ih ys (fun a ha => hx a (by simp [ha])) (fun a ha => hy a (by simp [ha])) h.2]

theorem decRepr_injective : Function.Injective decRepr := by
  intro a b h
  have h2 : (decDigits a).map digitChar = (decDigits b).map digitChar :=
    congrArg String.data h
  exact decDigits_injective
    (map_digitChar_inj _ _ (decDigits_lt_ten a) (decDigits_lt_ten b) h2)

theorem saveName_injective : Function.Injective saveName := by
  intro a b h
  have h2 : ("figure_".data ++ (decRepr a).data) ++ ".png".data =
      ("figure_".data ++ (decRepr b).data) ++ ".png".data := by
    have h1 := congrArg String.data h
    simpa [saveName, String.data_append] using h1
  apply decRepr_injective
  exact String.ext (List.append_cancel_left (List.append_cancel_right h2))

/-! ### Teardown helper lemmas -/

theorem finallyCleanup_never_raises (w : Oracle) : (finallyCleanup w).raised = false := by
  unfold finallyCleanup rmtreeCall
  cases w.rmtreeExc <;> rfl

theorem finallyCleanup_dirRemoved (w : Oracle) :
    (finallyCleanup w).dirRemoved = w.rmtreeRemoved := by
  unfold finallyCleanup rmtreeCall
  cases w.rmtreeExc <;> rfl

/-! ### Claim theorems -/

/-- C1: for every valid request whose workspace directory was created,
exactly one workspace is created and the teardown runs on every outcome
path (normal completion, timeout, write failure, or any other caught
error); the teardown never raises — on any oracle, even one where the
deletion itself fails or raises — and once the best-effort deletion
succeeds the workspace no longer exists. -/
theorem workspace_cleanup_on_every_outcome (d : ExecRequest) (w w2 : Oracle)
    (c : String) (hcode : d.code = some c) (hmk : w.mkdtempExc = none) :
    (execute (some d) w).workspacesCreated = 1
    ∧ (execute (some d) w).releaseCalled = true
    ∧ (execute (some d) w).releaseRaised = false
    ∧ (w.rmtreeRemoved = true → (execute (some d) w).workspaceExistsAfter = false)
    ∧ (finallyCleanup w2).raised = false := by
  refine ⟨?_, ?_, ?_, ?_, finallyCleanup_never_raises w2⟩ <;>
  · rcases hwr : w.writeExc with _ | m
    · rcases hro : w.runOutcome with r | _ | m <;>
        simp [execute, hcode, hmk, hwr, hro, tryExitTrace,
          finallyCleanup_never_raises, finallyCleanup_dirRemoved]
    · simp [execute, hcode, hmk, hwr, tryExitTrace,
        finallyCleanup_never_raises, finallyCleanup_dirRemoved]

/-- Witness for C1 at a concrete request and oracle. -/
theorem workspace_cleanup_on_every_outcome_witness :
    (execute (some sampleRequest) okOracle).workspacesCreated = 1
    ∧ (execute (some sampleRequest) okOracle).releaseRaised = false
    ∧ (execute (some sampleRequest) okOracle).workspaceExistsAfter = false := by
  have h := workspace_cleanup_on_every_outcome sampleRequest okOracle okOracle
    "print(1)" rfl rfl
  exact ⟨h.1, h.2.2.1, h.2.2.2.1 rfl⟩

/-- C2: when the child has not terminated within the effective timeout it
is forcibly terminated, and the response is an HTTP 200 result with empty
stdout, a stderr message naming the effective timeout, return code `-1`,
and `executionTimeMs` exactly `timeout * 1000`. -/
theorem timeout_synthetic_result (d : ExecRequest) (w : Oracle) (c : String)
    (hcode : d.code = some c) (hmk : w.mkdtempExc = none)
    (hwr : w.writeExc = none) (hrun : w.runOutcome = RunOutcome.timedOut) :
    (execute (some d) w).response = Except.ok
      ⟨200, HttpBody.result
        ⟨"",
         "Execution timed out after " ++ toString (effectiveTimeout d.timeout) ++ " seconds",
         -1, [], effectiveTimeout d.timeout * 1000⟩⟩
    ∧ (execute (some d) w).childForciblyTerminated = true := by
  constructor <;>
    simp [execute, hcode, hmk, hwr, hrun, tryExitTrace, timeoutMessage]

/-- Witness for C2: a defaulted request against a timing-out child yields
the literal 30-second synthetic result. -/
theorem timeout_synthetic_result_witness :
    (execute (some sampleRequest) timedOutOracle).response = Except.ok
      ⟨200, HttpBody.result
        ⟨"", "Execution timed out after 30 seconds", -1, [], 30000⟩⟩
    ∧ (execute (some sampleRequest) timedOutOracle).childForciblyTerminated = true := by
  have h := timeout_synthetic_result sampleRequest timedOutOracle "print(1)" rfl rfl rfl rfl
  exact ⟨h.1, h.2⟩

/-- C4: when the child process terminates on its own with a non-zero exit
code, the response is an HTTP 200 result passing the child's exit code,
stdout and stderr through verbatim — a runtime failure of the user
program is never escalated to an internal-error response. -/
theorem nonzero_exit_passthrough (d : ExecRequest) (w : Oracle) (c : String) (r : RunResult)
    (hcode : d.code = some c) (hmk : w.mkdtempExc = none) (hwr : w.writeExc = none)
    (hrun : w.runOutcome = RunOutcome.completed r) (hnz : r.returncode ≠ 0) :
    (execute (some d) w).response = Except.ok
      ⟨200, HttpBody.result
        ⟨r.stdout, r.stderr, r.returncode, collectFiles w.filesAfterRun, w.elapsedMs⟩⟩ := by
  simp [execute, hcode, hmk, hwr, hrun, tryExitTrace]

/-- Witness for C4: a child exiting 1 with a traceback on stderr still
gets a 200 response with its streams and exit code untouched. -/
theorem nonzero_exit_passthrough_witness :
    (execute (some sampleRequest) crashOracle).response = Except.ok
      ⟨200, HttpBody.result ⟨"partial", "Traceback: ZeroDivisionError", 1, [], 5⟩⟩ :=
  nonzero_exit_passthrough sampleRequest crashOracle "print(1)"
    ⟨"partial", "Traceback: ZeroDivisionError", 1⟩ rfl rfl rfl rfl (by decide)

/-- C5 as stated is refuted here: `tempfile.mkdtemp` sits outside the
`try` block, so a workspace-creation failure escapes the handler uncaught
— no HTTP response with an ExecutionResult-shaped body is produced at
all, let alone a 500 one. -/
theorem mkdtemp_failure_uncaught :
    (execute (some sampleRequest) mkdtempFailOracle).response =
      Except.error "could not create directory"
    ∧ ∀ resp : HttpResponse,
        (execute (some sampleRequest) mkdtempFailOracle).response ≠ Except.ok resp := by
  refine ⟨rfl, ?_⟩
  intro resp h
  exact Except.noConfusion h

/-- C5 (amended): an unexpected error raised inside the `try` block — a
code-file write failure, or `subprocess.run` raising anything other than
`TimeoutExpired` — yields an HTTP 500 response with an
ExecutionResult-shaped body (empty stdout, the error message as stderr,
return code `-1`, empty files, zero elapsed time); a workspace-creation
failure, however, is raised before the `try` and propagates uncaught. -/
theorem internal_error_responses (d : ExecRequest) (w : Oracle) (c m : String)
    (hcode : d.code = some c) :
    (w.mkdtempExc = none →
      (w.writeExc = some m ∨ (w.writeExc = none ∧ w.runOutcome = RunOutcome.raised m)) →
      (execute (some d) w).response = Except.ok
        ⟨500, HttpBody.result ⟨"", m, -1, [], 0⟩⟩)
    ∧ (w.mkdtempExc = some m → (execute (some d) w).response = Except.error m) := by
  constructor
  · intro hmk hcase
    rcases hcase with hwr | ⟨hwr, hrun⟩
    · simp [execute, hcode, hmk, hwr, tryExitTrace]
    · simp [execute, hcode, hmk, hwr, hrun, tryExitTrace]
  · intro hmk
    simp [execute, hcode, hmk, mkdtempFailTrace]

/-- Witness for the amended C5: a failing code-file write yields the
ExecutionResult-shaped 500, a failing `mkdtemp` escapes as an exception. -/
theorem internal_error_responses_witness :
    (execute (some sampleRequest) writeFailOracle).response = Except.ok
      ⟨500, HttpBody.result ⟨"", "disk full", -1, [], 0⟩⟩
    ∧ (execute (some sampleRequest) mkdtempFailOracle).response =
        Except.error "could not create directory" :=
  ⟨(internal_error_responses sampleRequest writeFailOracle "print(1)" "disk full" rfl).1
      rfl (Or.inl rfl),
   (internal_error_responses sampleRequest mkdtempFailOracle "print(1)"
      "could not create directory" rfl).2 rfl⟩

/-- C6: a request with no JSON body or without a `code` key gets the 400
`Missing "code" field` error; no workspace is created, no cleanup runs,
and no program is ever materialized. -/
theorem missing_code_rejected_before_workspace (data : Option ExecRequest) (w : Oracle)
    (h : data = none ∨ ∃ d, data = some d ∧ d.code = none) :
    (execute data w).response = Except.ok ⟨400, HttpBody.errorJson "Missing \"code\" field"⟩
    ∧ (execute data w).workspacesCreated = 0
    ∧ (execute data w).workspaceExistsAfter = false
    ∧ (execute data w).releaseCalled = false
    ∧ (execute data w).writtenProgram = none := by
  rcases h with h | ⟨d, hd, hcode⟩
  · subst h
    exact ⟨rfl, rfl, rfl, rfl, rfl⟩
  · subst hd
    simp [execute, hcode, validationFailTrace, missingCodeMsg]

/-- Witness for C6 at an absent body. -/
theorem missing_code_rejected_before_workspace_witness :
    (execute none okOracle).response =
      Except.ok ⟨400, HttpBody.errorJson "Missing \"code\" field"⟩
    ∧ (execute none okOracle).workspacesCreated = 0 := by
  have h := missing_code_rejected_before_workspace none okOracle (Or.inl rfl)
  exact ⟨h.1, h.2.1⟩

/-- C7 as stated is refuted here: a request whose `code` field is present
but the empty string passes validation and is executed — one workspace is
created, the empty program is materialized and run to a 200 result — it
is not rejected as a client-side validation error. -/
theorem empty_code_not_rejected :
    (execute (some emptyCodeRequest) okOracle).response = Except.ok
      ⟨200, HttpBody.result ⟨"", "", 0, [], 5⟩⟩
    ∧ (execute (some emptyCodeRequest) okOracle).workspacesCreated = 1
    ∧ (execute (some emptyCodeRequest) okOracle).writtenProgram =
        some (wrapped_code "/tmp/sandbox/tmpabc123" "") :=
  ⟨rfl, rfl, rfl⟩

/-- C7 (amended): validation checks only that a truthy JSON body with a
`code` key is present — the 400 validation error is returned exactly for
requests missing the body or the key, so a present-but-empty `code`
string is accepted and executed rather than rejected. -/
theorem validation_only_checks_presence (data : Option ExecRequest) (w : Oracle) :
    (execute data w).response = Except.ok ⟨400, HttpBody.errorJson missingCodeMsg⟩
    ↔ (data = none ∨ ∃ d, data = some d ∧ d.code = none) := by
  constructor
  · intro h
    rcases data with _ | d
    · exact Or.inl rfl
    · rcases hcode : d.code with _ | c
      · exact Or.inr ⟨d, rfl, hcode⟩
      · exfalso
        rcases hmk : w.mkdtempExc with _ | m
        · rcases hwr : w.writeExc with _ | m
          · rcases hro : w.runOutcome with r | _ | m <;>
              simp [execute, hcode, hmk, hwr, hro, tryExitTrace, missingCodeMsg] at h
          · simp [execute, hcode, hmk, hwr, tryExitTrace, missingCodeMsg] at h
        · simp [execute, hcode, hmk, mkdtempFailTrace] at h
  · intro h
    rcases h with h | ⟨d, hd, hcode⟩
    · subst h; rfl
    · subst hd
      simp [execute, hcode, validationFailTrace]

/-- C10: whenever the run times out, the response carries an empty files
list and empty stdout, even though the workspace still holds whatever the
child wrote before being killed (it is still there for the teardown). -/
theorem timeout_discards_artifacts (d : ExecRequest) (w : Oracle) (c : String)
    (hcode : d.code = some c) (hmk : w.mkdtempExc = none) (hwr : w.writeExc = none)
    (hrun : w.runOutcome = RunOutcome.timedOut) :
    ∃ res : ExecutionResponse,
      (execute (some d) w).response = Except.ok ⟨200, HttpBody.result res⟩
      ∧ res.files = [] ∧ res.stdout = ""
      ∧ (execute (some d) w).filesAtRelease = w.filesAfterRun := by
  refine ⟨⟨"", timeoutMessage (effectiveTimeout d.timeout), -1, [],
    effectiveTimeout d.timeout * 1000⟩, ?_, rfl, rfl, ?_⟩ <;>
    simp [execute, hcode, hmk, hwr, hrun, tryExitTrace]

/-- Witness for C10: the timing-out child had already written an image
file that the collector would pick up, yet the response reports no files
and empty stdout. -/
theorem timeout_discards_artifacts_witness :
    (∃ res : ExecutionResponse,
      (execute (some sampleRequest) timedOutOracle).response =
        Except.ok ⟨200, HttpBody.result res⟩
      ∧ res.files = [] ∧ res.stdout = ""
      ∧ (execute (some sampleRequest) timedOutOracle).filesAtRelease =
          timedOutOracle.filesAfterRun)
    ∧ collectFiles timedOutOracle.filesAfterRun ≠ [] := by
  constructor
  · exact timeout_discards_artifacts sampleRequest timedOutOracle "print(1)" rfl rfl rfl rfl
  · decide

/-- C3 as stated is refuted here: a request with `timeout: 0` yields an
effective timeout of `min(0, 60) = 0`, which is not in the interval
`(0, MAX]` — the clamp has no lower bound. -/
theorem timeout_clamp_no_lower_bound :
    effectiveTimeout (some 0) = 0 ∧ ¬(0 < effectiveTimeout (some 0)) := by
  constructor
  · rfl
  · decide

/-- C3 (amended): the effective timeout is
`min(requested-or-default, TIMEOUT_MAX)`; a request above the maximum is
clamped to the maximum rather than rejected; and the result lies in
`(0, TIMEOUT_MAX]` whenever the requested value is positive or absent —
but not in general, since no lower bound is enforced. -/
theorem timeout_clamp_amended (t : Option Int) :
    effectiveTimeout t = min (t.getD TIMEOUT_DEFAULT) TIMEOUT_MAX
    ∧ (∀ r : Int, t = some r → TIMEOUT_MAX < r → effectiveTimeout t = TIMEOUT_MAX)
    ∧ (∀ r : Int, t = some r → 0 < r →
        0 < effectiveTimeout t ∧ effectiveTimeout t ≤ TIMEOUT_MAX)
    ∧ (t = none → 0 < effectiveTimeout t ∧ effectiveTimeout t ≤ TIMEOUT_MAX) := by
  refine ⟨rfl, ?_, ?_, ?_⟩
  · intro r ht hr
    subst ht
    simp only [effectiveTimeout, Option.getD_some]
    rw [min_eq_right (le_of_lt hr)]
  · intro r ht hr
    subst ht
    simp only [effectiveTimeout, Option.getD_some, TIMEOUT_MAX]
    omega
  · intro ht
    subst ht
    simp only [effectiveTimeout, Option.getD_none, TIMEOUT_DEFAULT, TIMEOUT_MAX]
    omega

/-- Witness for the amended C3: requesting 100 seconds yields the maximum
of 60, and requesting 100 also lands inside `(0, 60]`. -/
theorem timeout_clamp_amended_witness :
    effectiveTimeout (some 100) = TIMEOUT_MAX ∧ 0 < effectiveTimeout (some 100) :=
  ⟨(timeout_clamp_amended (some 100)).2.1 100 rfl (by decide),
   ((timeout_clamp_amended (some 100)).2.2.1 100 rfl (by decide)).1⟩

/-! ### Lexicographic-order lemmas for the artifact sort -/

theorem char_lt_iff_toNat {a b : Char} : a < b ↔ a.toNat < b.toNat := Iff.rfl

theorem charListLe_total : ∀ as bs : List Char,
    charListLe as bs = true ∨ charListLe bs as = true := by
  intro as
  induction as with
  | nil => intro bs; left; rfl
  | cons a as ih =>
    intro bs
    cases bs with
    | nil => right; rfl
    | cons b bs =>
      simp only [charListLe]
      rcases Nat.lt_trichotomy a.toNat b.toNat with h | h | h
      · left; simp [h]
      · have h1 : ¬ a.toNat < b.toNat := by omega
        have h2 : ¬ b.toNat < a.toNat := by omega
        simpa [h1, h2] using ih bs
      · right; simp [h]

theorem charListLe_trans : ∀ as bs cs : List Char,
    charListLe as bs = true → charListLe bs cs = true → charListLe as cs = true := by
  intro as
  induction as with
  | nil => intro bs cs _ _; rfl
  | cons a as ih =>
    intro bs cs h1 h2
    cases bs with
    | nil => simp [charListLe] at h1
    | cons b bs =>
      cases cs with
      | nil => simp [charListLe] at h2
      | cons c cs =>
        simp only [charListLe] at h1 h2 ⊢
        by_cases hab : a.toNat < b.toNat
        · by_cases hbc : b.toNat < c.toNat
          · simp [show a.toNat < c.toNat by omega]
          · by_cases hcb : c.toNat < b.toNat
            · simp [hbc, hcb] at h2
            · simp [show a.toNat < c.toNat by omega]
        · by_cases hba : b.toNat < a.toNat
          · simp [hab, hba] at h1
          · simp only [hab, hba, if_false] at h1
            by_cases hbc : b.toNat < c.toNat
            · simp [show a.toNat < c.toNat by omega]
            · by_cases hcb : c.toNat < b.toNat
              · simp [hbc, hcb] at h2
              · simp only [hbc, hcb, if_false] at h2
                have hac : ¬ a.toNat < c.toNat := by omega
                have hca : ¬ c.toNat < a.toNat := by omega
                simp only [hac, hca, if_false]
                exact ih bs cs h1 h2

theorem char_eq_of_toNat_eq {a b : Char} (h : a.toNat = b.toNat) : a = b := by
  rw [← Char.ofNat_toNat a, ← Char.ofNat_toNat b, h]

theorem charListLe_iff_le : ∀ as bs : List Char, charListLe as bs = true ↔ as ≤ bs := by
  intro as
  induction as with
  | nil =>
    intro bs
    cases bs with
    | nil => exact iff_of_true rfl (Or.inl rfl)
    | cons b bs => exact iff_of_true rfl (Or.inr List.Lex.nil)
  | cons a as ih =>
    intro bs
    cases bs with
    | nil =>
      apply iff_of_false
      · simp [charListLe]
      · rintro (h | h)
        · exact List.noConfusion h
        · exact List.Lex.not_nil_right _ _ h
    | cons b bs =>
      simp only [charListLe]
      by_cases hab : a.toNat < b.toNat
      · simp only [hab, if_true]
        exact iff_of_true trivial (Or.inr (List.Lex.rel (char_lt_iff_toNat.mpr hab)))
      · by_cases hba : b.toNat < a.toNat
        · simp only [hab, hba, if_true, if_false]
          apply iff_of_false
          · simp
          · rintro (h | h)
            · have : a = b := by injection h
              subst this
              omega
            · cases h with
              | cons h2 => omega
              | rel h2 => exact absurd (char_lt_iff_toNat.mp h2) (by omega)
        · simp only [hab, hba, if_false]
          have hcons : ((a :: as : List Char) ≤ b :: bs) ↔ (as ≤ bs) := by
            have hEq : a = b := char_eq_of_toNat_eq (by omega)
            subst hEq
            constructor
            · rintro (h | h)
              · exact Or.inl (by injection h)
              · exact Or.inr ((List.Lex.cons_iff).mp h)
            · rintro (h | h)
              · exact Or.inl (by rw [h])
              · exact Or.inr (List.Lex.cons h)
          exact (ih bs).trans hcons.symm

theorem byName_le {p q : String × List Nat} (h : byName p q) : p.1 ≤ q.1 := by
  rw [String.le_iff_toList_le]
  exact (charListLe_iff_le p.1.data q.1.data).mp h

/-! ### Artifact-collection lemmas -/

theorem collectFiles_sorted (fs : List (String × List Nat)) :
    List.Pairwise (fun e1 e2 : FileEntry => e1.name ≤ e2.name) (collectFiles fs) := by
  haveI : IsTotal (String × List Nat) byName :=
    ⟨fun a b => charListLe_total a.1.data b.1.data⟩
  haveI : IsTrans (String × List Nat) byName :=
    ⟨fun a b c => charListLe_trans a.1.data b.1.data c.1.data⟩
  have hs : List.Sorted byName
      ((fs.filter (fun p => globPngMatches p.1)).insertionSort byName) :=
    List.sorted_insertionSort byName _
  exact List.Pairwise.map _ (fun a b h => byName_le h) hs

theorem collectFiles_names_perm (fs : List (String × List Nat)) :
    ((collectFiles fs).map FileEntry.name).Perm
      ((fs.filter (fun p => globPngMatches p.1)).map Prod.fst) := by
  unfold collectFiles
  rw [List.map_map]
  exact (List.perm_insertionSort byName _).map _

theorem collectFiles_mem (fs : List (String × List Nat)) :
    ∀ e ∈ collectFiles fs, e.mimeType = "image/png"
      ∧ ∃ content, (e.name, content) ∈ fs ∧ globPngMatches e.name = true
        ∧ e.base64 = b64encode content := by
  intro e he
  unfold collectFiles at he
  rw [List.mem_map] at he
  obtain ⟨p, hp, rfl⟩ := he
  rw [List.mem_insertionSort, List.mem_filter] at hp
  exact ⟨rfl, p.2, by simpa using hp.1, hp.2, rfl⟩

/-- C8: on a completed run, the response's `files` list is exactly the
collection over the workspace: only `*.png` names (scanned flat, originals
left in place for the teardown), sorted lexicographically by filename,
each carrying the base64 encoding of the file's bytes and mime type
`image/png`; a child that saved exactly two figures yields exactly the two
entries `figure_0.png`, `figure_1.png` in creation order. -/
theorem artifact_collection_spec (d : ExecRequest) (w : Oracle) (c : String) (r : RunResult)
    (hcode : d.code = some c) (hmk : w.mkdtempExc = none) (hwr : w.writeExc = none)
    (hrun : w.runOutcome = RunOutcome.completed r) :
    (∃ res : ExecutionResponse,
      (execute (some d) w).response = Except.ok ⟨200, HttpBody.result res⟩
      ∧ res.files = collectFiles w.filesAfterRun)
    ∧ (execute (some d) w).filesAtRelease = w.filesAfterRun
    ∧ List.Pairwise (fun e1 e2 : FileEntry => e1.name ≤ e2.name)
        (collectFiles w.filesAfterRun)
    ∧ ((collectFiles w.filesAfterRun).map FileEntry.name).Perm
        ((w.filesAfterRun.filter (fun p => globPngMatches p.1)).map Prod.fst)
    ∧ (∀ e ∈ collectFiles w.filesAfterRun, e.mimeType = "image/png"
        ∧ ∃ content, (e.name, content) ∈ w.filesAfterRun ∧ e.base64 = b64encode content)
    ∧ collectFiles [("figure_1.png", [137, 80]), ("figure_0.png", [78, 71])] =
        [⟨"figure_0.png", b64encode [78, 71], "image/png"⟩,
         ⟨"figure_1.png", b64encode [137, 80], "image/png"⟩] := by
  refine ⟨⟨⟨r.stdout, r.stderr, r.returncode, collectFiles w.filesAfterRun, w.elapsedMs⟩,
      ?_, rfl⟩, ?_, collectFiles_sorted _, collectFiles_names_perm _, ?_, by decide⟩
  · simp [execute, hcode, hmk, hwr, hrun, tryExitTrace]
  · simp [execute, hcode, hmk, hwr, hrun, tryExitTrace]
  · intro e he
    obtain ⟨h1, content, h2, _, h3⟩ := collectFiles_mem _ e he
    exact ⟨h1, content, h2, h3⟩

/-- Witness for C8: the two-figure oracle yields the collected, sorted
two-entry list in the 200 response. -/
theorem artifact_collection_spec_witness :
    (∃ res : ExecutionResponse,
      (execute (some sampleRequest) twoFigureOracle).response =
        Except.ok ⟨200, HttpBody.result res⟩
      ∧ res.files = collectFiles twoFigureOracle.filesAfterRun)
    ∧ List.Pairwise (fun e1 e2 : FileEntry => e1.name ≤ e2.name)
        (collectFiles twoFigureOracle.filesAfterRun) := by
  have h := artifact_collection_spec sampleRequest twoFigureOracle "print(1)"
    ⟨"", "", 0⟩ rfl rfl rfl rfl
  exact ⟨h.1, h.2.2.1⟩

/-! ### Figure-export lemmas -/

theorem exportFigures_names (d : String) (figs : List Nat) :
    (exportFigures d figs).map SaveAction.fileName =
      (List.range figs.length).map saveName := by
  unfold exportFigures
  rw [List.map_map, List.enum_eq_zip_range]
  calc ((List.range figs.length).zip figs).map
        (SaveAction.fileName ∘ fun p : Nat × Nat =>
          ({ directory := d, fileName := saveName p.1, dpi := 150,
             closedAfter := true } : SaveAction))
      = (((List.range figs.length).zip figs).map Prod.fst).map saveName := by
        rw [List.map_map]
        rfl
    _ = (List.range figs.length).map saveName := by
        rw [List.map_fst_zip _ _ (by simp)]

theorem decDigits_zero : decDigits 0 = [0] := by
  rw [decDigits]
  simp

theorem decDigits_one : decDigits 1 = [1] := by
  rw [decDigits]
  simp

theorem saveName_zero : saveName 0 = "figure_0.png" := by
  simp only [saveName, decRepr, decDigits_zero]
  decide

theorem saveName_one : saveName 1 = "figure_1.png" := by
  simp only [saveName, decRepr, decDigits_one]
  decide

set_option maxRecDepth 10000 in
/-- C9: the materialized program is the preamble, the user code verbatim
and unmodified, then the postamble; the preamble selects the headless
`Agg` backend and changes into the workspace before any user code; the
postamble loop saves the open figures in enumeration order to distinct
decimally-numbered `figure_<i>.png` files in the workspace at 150 dpi and
closes each figure after export. -/
theorem wrapped_program_structure (execDir code : String) (figs : List Nat) :
    (wrapped_code execDir code).data =
      (preamble execDir).data ++ code.data ++ (postamble execDir).data
    ∧ preamble execDir = preamblePart1 ++ execDir ++ preamblePart2
    ∧ preamblePart1 =
        "\nimport os\nimport sys\nimport matplotlib\n"
          ++ "matplotlib.use(\x27Agg\x27)  # Non-interactive backend\n"
          ++ "import matplotlib.pyplot as plt\n\n"
          ++ "# Change to execution directory for file output\nos.chdir(\""
    ∧ postamble execDir =
        "\n\n# Auto-save any open matplotlib figures\n"
          ++ "for i, fig_num in enumerate(plt.get_fignums()):\n"
          ++ "    fig = plt.figure(fig_num)\n"
          ++ "    fig.savefig(os.path.join(\"" ++ execDir
          ++ "\", f\"figure_{i}.png\"), dpi=150, bbox_inches=\x27tight\x27)\n"
          ++ "    plt.close(fig)\n"
    ∧ (exportFigures execDir figs).map SaveAction.fileName =
        (List.range figs.length).map saveName
    ∧ ((List.range figs.length).map saveName).Nodup
    ∧ (∀ a ∈ exportFigures execDir figs,
        a.directory = execDir ∧ a.dpi = 150 ∧ a.closedAfter = true)
    ∧ (exportFigures execDir figs).length = figs.length
    ∧ saveName 0 = "figure_0.png" ∧ saveName 1 = "figure_1.png" := by
  refine ⟨by simp [wrapped_code, String.data_append], by rfl, by decide, ?_, ?_, ?_, ?_, ?_,
    saveName_zero, saveName_one⟩
  · show postamblePart1 ++ execDir ++ postamblePart2 = _
    rw [show postamblePart1 =
        "\n\n# Auto-save any open matplotlib figures\n"
          ++ "for i, fig_num in enumerate(plt.get_fignums()):\n"
          ++ "    fig = plt.figure(fig_num)\n"
          ++ "    fig.savefig(os.path.join(\"" from by decide]
    rw [show postamblePart2 =
        "\", f\"figure_{i}.png\"), dpi=150, bbox_inches=\x27tight\x27)\n"
          ++ "    plt.close(fig)\n" from by decide]
    apply String.ext
    simp [String.data_append, List.append_assoc]
  · exact exportFigures_names execDir figs
  · exact List.Nodup.map saveName_injective (List.nodup_range _)
  · intro a ha
    unfold exportFigures at ha
    rw [List.mem_map] at ha
    obtain ⟨p, _, rfl⟩ := ha
    exact ⟨rfl, rfl, rfl⟩
  · simp [exportFigures]

end Sandbox


